import Mathlib

/-!
Shallow embedding of the OpenVINO super-resolution demo driver
(`inference_engine/samples/super_resolution_demo/main.cpp`).

The program is a linear pipeline: parse and validate CLI flags, load the
plugin and the network files, check the declared input count, decode and
validate candidate images against the low-resolution input shape, set the
batch size, prepare output blobs, fill the input tensors (optionally with a
bicubic-resized companion), run the synchronous inference loop while
accumulating per-iteration latencies, report the average, and write one
output image per batch slot of the output tensor.

External collaborators (the inference engine, the image codec) are modelled
as environment-supplied data: `imread` for `cv::imread`, `resize` for
`cv::resize`, per-iteration measured durations for the clock, and optional
injected exceptions at the call sites of the backend, mirroring the fact
that any backend call may throw into the single top-level catch.  Observable
effects (reading the model file, setting the batch size, filling a tensor
slot, running one inference, reporting the average, writing a file) are
recorded as an ordered event trace.
-/

/-- A decoded OpenCV image: `cols`/`rows` as in `cv::Mat`, plus an abstract
pixel-content tag distinguishing images. -/
structure Image where
  cols : Nat
  rows : Nat
  pix : Nat
deriving DecidableEq, Repr

/-- OpenCV interpolation modes relevant to the demo (`cv::INTER_CUBIC` is the
one the demo passes at main.cpp:203). -/
inductive Interp where
  | cubic
  | linear
  | nearest
deriving DecidableEq, Repr

/-- Observable effects of one run, in program order. -/
inductive Event where
  | readNetwork
  | readWeights
  | warn (name : String)
  | setBatch (n : Nat)
  | fillBlob (blobName : String) (batchIndex : Nat) (img : Image)
  | infer
  | reportAvg (ms : ℚ)
  | imshow
  | writeImage (fileName : String)
deriving DecidableEq, Repr

/-- A C++ exception reaching the catch blocks at main.cpp:270-277: either a
`std::exception` carrying a message, or anything else (`catch (...)`). -/
inductive CppException where
  | typed (msg : String)
  | untyped
deriving DecidableEq, Repr

/-- NCHW tensor dimensions, as returned by `getTensorDesc().getDims()`:
index 0 is `n`, 1 is `c`, 2 is `h`, 3 is `w`. -/
structure Dims4 where
  n : Nat
  c : Nat
  h : Nat
  w : Nat
deriving DecidableEq, Repr

/-- Modelled from the spec: the gflags flag set declared in
`super_resolution_demo.h`, which is not part of the sources here.  The spec's
CLI table lists `-i`, `-m`, `-d`, `-ni` (iteration count, may be 0 or
negative), `-pp`, `-l`, `-c`, `-pc`, `-show`, `-h`; `ni` is modelled as an
integer so that the spec's "0 or negative" cases are representable. -/
structure Flags where
  h : Bool
  ni : Int
  i : String
  m : String
  d : String
  pc : Bool
  showImg : Bool
deriving DecidableEq, Repr

/-- The run environment: parsed flags, the candidate image paths produced by
`parseInputFilesArguments`, the external codec operations, the network's
declared shape metadata, the measured per-iteration durations, and optional
exceptions injected at the backend call sites. -/
structure Env where
  flags : Flags
  imageNames : List String
  imread : String → Option Image
  resize : Image → Nat → Nat → Interp → Image
  numInputs : Nat
  lrDims : Dims4
  bicDims : Dims4
  outputs : List (String × Bool)
  durations : Nat → ℚ
  pluginErr : Option CppException
  readNetErr : Option CppException
  loadNetErr : Option CppException
  inferErr : Option CppException

/-- main.cpp:31-34: `T clip(const T& n, const T& lower, const T& upper)`
returns `std::max(lower, std::min(n, upper))`. -/
def clip {α : Type} [LinearOrder α] (n lower upper : α) : α :=
  max lower (min n upper)

/-- main.cpp:36-59 `ParseAndCheckCommandLine`: `-h` prints usage and returns
`false` (main then exits 0); `-ni < 1`, empty `-i` and empty `-m` each throw
a `std::logic_error`; otherwise returns `true`. -/
def parseAndCheck (f : Flags) : Except CppException Bool :=
  if f.h then Except.ok false
  else if f.ni < 1 then
    Except.error (CppException.typed "Parameter -ni should be more than 0 !!! (default 1)")
  else if f.i = "" then Except.error (CppException.typed "Parameter -i is not set")
  else if f.m = "" then Except.error (CppException.typed "Parameter -m is not set")
  else Except.ok true

/-- main.cpp:132-151: the image-collection loop.  For each candidate path:
decode with `cv::imread`; on failure warn and continue; compare the image's
`cols`/`rows` with the low-resolution input's `w` (dims[3]) and `h` (dims[2]);
on mismatch warn and continue; otherwise push onto `inputImages`.  Returns
the accepted images and the warn events, both in order. -/
def collectImages (imread : String → Option Image) (w h : Nat) :
    List String → List Image × List Event
  | [] => ([], [])
  | name :: rest =>
    match imread name with
    | none =>
      let r := collectImages imread w h rest
      (r.1, Event.warn name :: r.2)
    | some img =>
      if w ≠ img.cols ∨ h ≠ img.rows then
        let r := collectImages imread w h rest
        (r.1, Event.warn name :: r.2)
      else
        let r := collectImages imread w h rest
        (img :: r.1, r.2)

/-- Spec-side characterisation of the accepted images (section 4.4 of the
spec): the candidates that decode successfully and whose dimensions equal
the declared low-resolution width/height exactly, in order. -/
def acceptedImagesSpec (imread : String → Option Image) (w h : Nat)
    (names : List String) : List Image :=
  names.filterMap fun name =>
    match imread name with
    | none => none
    | some img => if w = img.cols ∧ h = img.rows then some img else none

/-- Spec-side characterisation of the rejected candidates (section 4.4 of
the spec): those that fail to decode or whose dimensions mismatch. -/
def rejectedNamesSpec (imread : String → Option Image) (w h : Nat)
    (names : List String) : List String :=
  names.filter fun name =>
    match imread name with
    | none => true
    | some img => decide (w ≠ img.cols ∨ h ≠ img.rows)

/-- main.cpp:164-175: the output-info loop.  Records the first output name,
throws if any output's data pointer is invalid (the precision-setting side
effect has no observable consequence in this model). -/
def prepareOutputs (firstOutputName : String) :
    List (String × Bool) → Except CppException String
  | [] => Except.ok firstOutputName
  | item :: rest =>
    let first := if firstOutputName = "" then item.1 else firstOutputName
    if item.2 then prepareOutputs first rest
    else Except.error (CppException.typed "output data pointer is not valid")

/-- main.cpp:190-207 with the loop index made explicit: for each accepted
image at batch index `i`, `matU8ToBlob` fills slot `i` of input blob "0";
when the network declares two inputs, the image is resized to the second
input blob's `w` (dims[3]) and `h` (dims[2]) with `cv::INTER_CUBIC` and the
result fills slot `i` of input blob "1". -/
def fillBlobsFrom (resize : Image → Nat → Nat → Interp → Image)
    (numInputs bw bh : Nat) : Nat → List Image → List Event
  | _, [] => []
  | i, img :: rest =>
    Event.fillBlob "0" i img ::
      ((if numInputs = 2 then
          [Event.fillBlob "1" i (resize img bw bh Interp.cubic)]
        else []) ++
        fillBlobsFrom resize numInputs bw bh (i + 1) rest)

/-- main.cpp:190-207: the tensor-fill loop, starting at batch index 0. -/
def fillBlobs (resize : Image → Nat → Nat → Interp → Image)
    (numInputs bw bh : Nat) (imgs : List Image) : List Event :=
  fillBlobsFrom resize numInputs bw bh 0 imgs

/-- Extracts the fills of the companion input blob "1" from an event list,
as (batch index, image content) pairs. -/
def bicFillOf : Event → Option (Nat × Image)
  | Event.fillBlob bname i img => if bname = "1" then some (i, img) else none
  | _ => none

/-- main.cpp:217-226: the inference loop.  Runs `ni` synchronous `Infer`
calls; `total` accumulates the measured duration of each call in
milliseconds, starting from `0.0`, in loop order.  Returns the accumulated
total and the trace of inference events. -/
def inferLoop (durations : Nat → ℚ) (ni : Nat) : ℚ × List Event :=
  ((List.range ni).foldl (fun total iter => total + durations iter) 0,
   (List.range ni).map fun _ => Event.infer)

/-- main.cpp:229: the reported average, `total / static_cast<double>(FLAGS_ni)`. -/
def reportedAverage (durations : Nat → ℚ) (ni : Nat) : ℚ :=
  (inferLoop durations ni).1 / (ni : ℚ)

/-- main.cpp:249-267: the output loop.  For each batch element `i` of the
output tensor, optionally display the merged image (`-show`), then write it
as `"sr_" + std::to_string(i + 1) + ".png"`. -/
def processOutput (showImg : Bool) (numOfImages : Nat) : List Event :=
  (List.range numOfImages).flatMap fun i =>
    (if showImg then [Event.imshow] else []) ++
      [Event.writeImage ("sr_" ++ toString (i + 1) ++ ".png")]

/-- main.cpp:245-252: the flat-buffer indices read while materialising the
output.  `nunOfPixels = w * h`; for each batch element `i` the code builds
exactly three `h`×`w` channel planes at element offsets
`i * nunOfPixels * numOfChannels`, `... + nunOfPixels` and
`... + 2 * nunOfPixels` (three planes always, whatever `c` is), and each
plane covers `nunOfPixels` consecutive elements. -/
def outputReadIndices (n c hgt wdt : Nat) : List Nat :=
  (List.range n).flatMap fun i =>
    (List.range 3).flatMap fun plane =>
      (List.range (wdt * hgt)).map fun p =>
        i * (wdt * hgt) * c + plane * (wdt * hgt) + p

/-- Outcome of `main`: either it fell off the end of the `try` block
(exit 0) or an exception reached a catch block (exit 1). -/
inductive ExitStatus where
  | okExit
  | err (e : CppException)
deriving DecidableEq, Repr

/-- An exit status together with the ordered event trace of the run. -/
structure RunOutcome where
  status : ExitStatus
  events : List Event
deriving DecidableEq, Repr

/-- main.cpp:61-281, the body of `main` inside the `try` block, stage by
stage in source order: argument validation (exit 0 on `-h`), the empty
input-list check, plugin acquisition, `ReadNetwork`/`ReadWeights`, the
1-or-2-inputs check, image collection, the zero-valid-images check,
`setBatchSize(imageNames.size())`, output preparation, `LoadNetwork`,
tensor filling, the inference loop with its average report, and output
materialisation writing one file per batch slot of the output tensor
(whose leading dimension equals the configured batch size). -/
def run (env : Env) : RunOutcome :=
  match parseAndCheck env.flags with
  | Except.error e => ⟨ExitStatus.err e, []⟩
  | Except.ok false => ⟨ExitStatus.okExit, []⟩
  | Except.ok true =>
    if env.imageNames = [] then
      ⟨ExitStatus.err (CppException.typed "No suitable images were found"), []⟩
    else
      match env.pluginErr with
      | some e => ⟨ExitStatus.err e, []⟩
      | none =>
        match env.readNetErr with
        | some e => ⟨ExitStatus.err e, [Event.readNetwork]⟩
        | none =>
          let evs := [Event.readNetwork, Event.readWeights]
          if env.numInputs ≠ 1 ∧ env.numInputs ≠ 2 then
            ⟨ExitStatus.err
              (CppException.typed "The demo supports topologies with 1 or 2 inputs only"), evs⟩
          else
            let collected :=
              collectImages env.imread env.lrDims.w env.lrDims.h env.imageNames
            let evs := evs ++ collected.2
            if collected.1 = [] then
              ⟨ExitStatus.err (CppException.typed "Valid input images were not found!"), evs⟩
            else
              let batchSize := env.imageNames.length
              let evs := evs ++ [Event.setBatch batchSize]
              match prepareOutputs "" env.outputs with
              | Except.error e => ⟨ExitStatus.err e, evs⟩
              | Except.ok _firstOutputName =>
                match env.loadNetErr with
                | some e => ⟨ExitStatus.err e, evs⟩
                | none =>
                  let evs := evs ++
                    fillBlobs env.resize env.numInputs env.bicDims.w env.bicDims.h
                      collected.1
                  match env.inferErr with
                  | some e => ⟨ExitStatus.err e, evs ++ [Event.infer]⟩
                  | none =>
                    let loopRes := inferLoop env.durations env.flags.ni.toNat
                    let evs := evs ++ loopRes.2 ++
                      [Event.reportAvg (loopRes.1 / (env.flags.ni : ℚ))]
                    let evs := evs ++ processOutput env.flags.showImg batchSize
                    ⟨ExitStatus.okExit, evs⟩

/-- main.cpp:61-281: the process exit code, with the two catch blocks at
main.cpp:270-277 mapping every exception (typed or not) to `return 1` and
the fall-through at main.cpp:280 to `return 0`. -/
def mainExit (env : Env) : Nat :=
  match (run env).status with
  | ExitStatus.okExit => 0
  | ExitStatus.err _ => 1

/-- The output files written during a run, in order (`cv::imwrite` calls). -/
def writtenFiles (evs : List Event) : List String :=
  evs.filterMap fun e =>
    match e with
    | Event.writeImage name => some name
    | _ => none

/-- The fills of input blob `bname` occurring in an event list, as
(batch index, image content) pairs, in order. -/
def fillsOfBlob (bname : String) (evs : List Event) : List (Nat × Image) :=
  evs.filterMap fun e =>
    match e with
    | Event.fillBlob b i img => if b = bname then some (i, img) else none
    | _ => none

/-- A baseline environment for concrete evaluations: one 4×3 candidate image
matching the declared low-resolution shape, a single-input network, one
valid output, no injected backend failures. -/
def baseEnv : Env where
  flags := ⟨false, 1, "input", "model.xml", "CPU", false, false⟩
  imageNames := ["a.png"]
  imread := fun _ => some ⟨4, 3, 0⟩
  resize := fun img _ _ _ => img
  numInputs := 1
  lrDims := ⟨1, 3, 3, 4⟩
  bicDims := ⟨1, 3, 6, 8⟩
  outputs := [("out", true)]
  durations := fun _ => 0
  pluginErr := none
  readNetErr := none
  loadNetErr := none
  inferErr := none

/-- Two candidate paths of which only the first decodes: exercises the
filter-versus-batch-size interaction. -/
def envMixed : Env :=
  { baseEnv with
    imageNames := ["a.png", "b.png"]
    imread := fun name => if name = "a.png" then some ⟨4, 3, 0⟩ else none }

/-- A network declaring three inputs. -/
def envThreeInputs : Env :=
  { baseEnv with numInputs := 3 }

/-- An iteration count of zero. -/
def envNiZero : Env :=
  { baseEnv with flags := { baseEnv.flags with ni := 0 } }

/-- The help flag set. -/
def envHelp : Env :=
  { baseEnv with flags := { baseEnv.flags with h := true } }

/-- Every candidate image fails to decode. -/
def envAllRejected : Env :=
  { baseEnv with imread := fun _ => none }

/-- The backend throws an untyped exception during `Infer`. -/
def envUntypedErr : Env :=
  { baseEnv with inferErr := some CppException.untyped }

/-- Helper: the accepted-image component of the collection loop is the
filterMap characterisation. -/
theorem collectImages_fst_eq (imread : String → Option Image) (w h : Nat) :
    ∀ names : List String,
      (collectImages imread w h names).1 = acceptedImagesSpec imread w h names := by
  intro names
  induction names with
  | nil => rfl
  | cons name rest ih =>
    rw [collectImages, acceptedImagesSpec, List.filterMap_cons]
    cases himg : imread name with
    | none => simpa [acceptedImagesSpec] using ih
    | some img =>
      by_cases hcond : w ≠ img.cols ∨ h ≠ img.rows
      · have hn : ¬(w = img.cols ∧ h = img.rows) := by
          rcases hcond with hc | hc <;> intro hand <;> exact hc (by simp [hand.1, hand.2])
        simpa [hcond, hn, acceptedImagesSpec] using ih
      · have hy : w = img.cols ∧ h = img.rows := by
          constructor <;> by_contra hne <;> exact hcond (by simp [hne])
        simpa [hcond, hy, acceptedImagesSpec] using ih

/-- Helper: the warn-event component of the collection loop is the warning,
in order, for each rejected candidate. -/
theorem collectImages_snd_eq (imread : String → Option Image) (w h : Nat) :
    ∀ names : List String,
      (collectImages imread w h names).2
        = (rejectedNamesSpec imread w h names).map Event.warn := by
  intro names
  induction names with
  | nil => rfl
  | cons name rest ih =>
    rw [collectImages, rejectedNamesSpec, List.filter_cons]
    cases himg : imread name with
    | none => simpa [himg, rejectedNamesSpec] using ih
    | some img =>
      by_cases hcond : w ≠ img.cols ∨ h ≠ img.rows
      · simpa [himg, hcond, rejectedNamesSpec] using ih
      · simpa [himg, hcond, rejectedNamesSpec] using ih

/-- Helper: the companion-blob fills produced by the fill loop started at
index `i` on a two-input network. -/
theorem fillBlobsFrom_bic (resize : Image → Nat → Nat → Interp → Image)
    (bw bh : Nat) :
    ∀ (imgs : List Image) (i : Nat),
      (fillBlobsFrom resize 2 bw bh i imgs).filterMap bicFillOf
        = ((List.range' i imgs.length).zip imgs).map
            fun p => (p.1, resize p.2 bw bh Interp.cubic) := by
  intro imgs
  induction imgs with
  | nil => intro i; rfl
  | cons img rest ih =>
    intro i
    have h0 : bicFillOf (Event.fillBlob "0" i img) = none := rfl
    have h1 : bicFillOf (Event.fillBlob "1" i (resize img bw bh Interp.cubic))
        = some (i, resize img bw bh Interp.cubic) := rfl
    rw [fillBlobsFrom]
    simp [h0, h1, List.filterMap_cons, List.range'_succ, ih (i + 1)]

/-- Helper: a left fold accumulating durations equals the initial value plus
their sum. -/
theorem foldl_add_durations (d : Nat → ℚ) :
    ∀ (l : List Nat) (a : ℚ),
      l.foldl (fun total iter => total + d iter) a = a + (l.map d).sum := by
  intro l
  induction l with
  | nil => intro a; simp
  | cons x l ih =>
    intro a
    simp only [List.foldl_cons, List.map_cons, List.sum_cons, ih (a + d x)]
    ring

/-- Helper: `writtenFiles` distributes over append. -/
theorem writtenFiles_append (a b : List Event) :
    writtenFiles (a ++ b) = writtenFiles a ++ writtenFiles b :=
  List.filterMap_append a b _

/-- Helper: warnings produce no written files. -/
theorem writtenFiles_warns (l : List String) :
    writtenFiles (l.map Event.warn) = [] := by
  induction l with
  | nil => rfl
  | cons x l ih => simp [writtenFiles, List.filterMap_cons, ih]

/-- C10: for all values `n`, `lower`, `upper` of an ordered type with
`lower ≤ upper`, `clip n lower upper` lies in the closed interval
`[lower, upper]`, and equals `n` itself whenever `lower ≤ n ≤ upper`. -/
theorem clip_in_range {α : Type} [LinearOrder α] (n lower upper : α)
    (h : lower ≤ upper) :
    lower ≤ clip n lower upper ∧ clip n lower upper ≤ upper ∧
      (lower ≤ n → n ≤ upper → clip n lower upper = n) := by
  refine ⟨le_max_left _ _, max_le h (min_le_right _ _), fun h1 h2 => ?_⟩
  rw [clip, min_eq_left h2, max_eq_right h1]

/-- Witness for `clip_in_range` at `n = 5`, `lower = 0`, `upper = 10`
over the integers. -/
theorem clip_in_range_witness :
    (0 : Int) ≤ 10 ∧
      ((0 : Int) ≤ clip 5 0 10 ∧ clip (5 : Int) 0 10 ≤ 10 ∧
        ((0 : Int) ≤ 5 → (5 : Int) ≤ 10 → clip (5 : Int) 0 10 = 5)) :=
  ⟨by decide, clip_in_range 5 0 10 (by decide)⟩

/-- C3: on a network declaring exactly 2 inputs, the fills of the companion
input blob "1" are exactly, for each accepted image at batch index `i`, the
cubic-interpolation resize of that image to the second input's declared
width `bw` and height `bh` — one fill per accepted image, at its batch
index, and nothing else is ever written to blob "1". -/
theorem bicubic_companion_fills (resize : Image → Nat → Nat → Interp → Image)
    (bw bh : Nat) (imgs : List Image) :
    (fillBlobs resize 2 bw bh imgs).filterMap bicFillOf
      = ((List.range imgs.length).zip imgs).map
          fun p => (p.1, resize p.2 bw bh Interp.cubic) := by
  rw [fillBlobs, fillBlobsFrom_bic, List.range_eq_range']

/-- C7: for every iteration count `ni ≥ 1`, the inference loop performs
exactly `ni` synchronous forward passes, and the reported average latency
equals the sum of the `ni` measured per-call durations divided by `ni`. -/
theorem average_latency (d : Nat → ℚ) (ni : Nat) (_h : 1 ≤ ni) :
    (inferLoop d ni).2 = List.replicate ni Event.infer ∧
      reportedAverage d ni = ((List.range ni).map d).sum / (ni : ℚ) := by
  constructor
  · simp [inferLoop, List.map_const']
  · rw [reportedAverage, inferLoop]
    simp [foldl_add_durations]

/-- Witness for `average_latency` at `ni = 2` and durations `i ↦ i + 1`. -/
theorem average_latency_witness :
    1 ≤ 2 ∧
      ((inferLoop (fun i => (i : ℚ) + 1) 2).2 = List.replicate 2 Event.infer ∧
        reportedAverage (fun i => (i : ℚ) + 1) 2
          = ((List.range 2).map fun i => (i : ℚ) + 1).sum / (2 : ℚ)) :=
  ⟨by decide, average_latency (fun i => (i : ℚ) + 1) 2 (by decide)⟩

/-- C9: output materialisation reads exactly 3 channel planes of `w*h`
elements per batch element, at offsets `0`, `h*w` and `2*h*w` into that
element's region, and when the output tensor declares exactly `c = 3`
channels every read index is within the bounds of the `n*c*h*w` buffer. -/
theorem output_reads_in_bounds (n c hgt wdt : Nat) (hc : c = 3) :
    (outputReadIndices n c hgt wdt).length = n * (3 * (wdt * hgt)) ∧
      ∀ idx ∈ outputReadIndices n c hgt wdt, idx < n * c * hgt * wdt := by
  subst hc
  constructor
  · simp only [outputReadIndices, List.length_flatMap, Function.comp_def,
      List.length_map, List.length_range, List.map_const', List.sum_const_nat]
  · intro idx hidx
    simp only [outputReadIndices, List.mem_flatMap, List.mem_map,
      List.mem_range] at hidx
    obtain ⟨i, hi, pl, hpl, p, hp, rfl⟩ := hidx
    have hW : 0 < wdt * hgt := Nat.pos_of_ne_zero (by omega)
    calc i * (wdt * hgt) * 3 + pl * (wdt * hgt) + p
        < i * (wdt * hgt) * 3 + pl * (wdt * hgt) + wdt * hgt := by omega
      _ = (wdt * hgt) * (3 * i + pl + 1) := by ring
      _ ≤ (wdt * hgt) * (3 * i + 3) := Nat.mul_le_mul_left _ (by omega)
      _ = (wdt * hgt) * (3 * (i + 1)) := by ring
      _ ≤ (wdt * hgt) * (3 * n) := Nat.mul_le_mul_left _ (by omega)
      _ = n * 3 * hgt * wdt := by ring

/-- Witness for `output_reads_in_bounds` with a 1×3×1×1 output tensor and
the concrete read index 2. -/
theorem output_reads_in_bounds_witness :
    (3 : Nat) = 3 ∧ 2 ∈ outputReadIndices 1 3 1 1 ∧ 2 < 1 * 3 * 1 * 1 :=
  ⟨rfl, by decide, (output_reads_in_bounds 1 3 1 1 rfl).2 2 (by decide)⟩

/-- C5: with the help flag absent, an iteration count of 0 or negative makes
the run abort with the fatal `-ni` logic error raised in
`ParseAndCheckCommandLine`, before model loading: the event trace is empty,
so in particular `ReadNetwork` is never invoked, and the process exits 1. -/
theorem ni_aborts_before_model_load (env : Env) (hh : env.flags.h = false)
    (hni : env.flags.ni < 1) :
    (run env).status
        = ExitStatus.err
            (CppException.typed "Parameter -ni should be more than 0 !!! (default 1)") ∧
      Event.readNetwork ∉ (run env).events ∧ (run env).events = [] ∧
      mainExit env = 1 := by
  have hp : parseAndCheck env.flags
      = Except.error
          (CppException.typed "Parameter -ni should be more than 0 !!! (default 1)") := by
    rw [parseAndCheck, if_neg (by simp [hh]), if_pos hni]
  have hrun : run env
      = ⟨ExitStatus.err
          (CppException.typed "Parameter -ni should be more than 0 !!! (default 1)"), []⟩ := by
    unfold run
    rw [hp]
  refine ⟨by rw [hrun], by rw [hrun]; simp, by rw [hrun], ?_⟩
  rw [mainExit, hrun]

/-- Witness for `ni_aborts_before_model_load` on the concrete environment
with `-ni 0`. -/
theorem ni_aborts_before_model_load_witness :
    envNiZero.flags.h = false ∧ envNiZero.flags.ni < 1 ∧
      ((run envNiZero).status
          = ExitStatus.err
              (CppException.typed "Parameter -ni should be more than 0 !!! (default 1)") ∧
        Event.readNetwork ∉ (run envNiZero).events ∧ (run envNiZero).events = [] ∧
        mainExit envNiZero = 1) :=
  ⟨rfl, by decide, ni_aborts_before_model_load envNiZero rfl (by decide)⟩

/-- C4: when a run reaches the network-shape check (arguments valid, some
candidate paths, plugin acquisition and network reading succeed) and the
loaded network declares fewer than 1 or more than 2 inputs, it aborts with
the fatal topology error before any inference is executed: no `infer` event
occurs and the exit code is 1. -/
theorem bad_input_count_aborts (env : Env)
    (hp : parseAndCheck env.flags = Except.ok true)
    (him : env.imageNames ≠ [])
    (hpl : env.pluginErr = none) (hrd : env.readNetErr = none)
    (h1 : env.numInputs ≠ 1) (h2 : env.numInputs ≠ 2) :
    (run env).status
        = ExitStatus.err
            (CppException.typed "The demo supports topologies with 1 or 2 inputs only") ∧
      Event.infer ∉ (run env).events ∧ mainExit env = 1 := by
  have hrun : run env
      = ⟨ExitStatus.err
          (CppException.typed "The demo supports topologies with 1 or 2 inputs only"),
        [Event.readNetwork, Event.readWeights]⟩ := by
    unfold run
    rw [hp, hpl, hrd]
    simp [him, h1, h2]
  refine ⟨by rw [hrun], by rw [hrun]; decide, ?_⟩
  rw [mainExit, hrun]

/-- Witness for `bad_input_count_aborts` on the concrete environment whose
network declares three inputs. -/
theorem bad_input_count_aborts_witness :
    parseAndCheck envThreeInputs.flags = Except.ok true ∧
      envThreeInputs.imageNames ≠ [] ∧ envThreeInputs.numInputs ≠ 1 ∧
      envThreeInputs.numInputs ≠ 2 ∧
      ((run envThreeInputs).status
          = ExitStatus.err
              (CppException.typed "The demo supports topologies with 1 or 2 inputs only") ∧
        Event.infer ∉ (run envThreeInputs).events ∧ mainExit envThreeInputs = 1) :=
  ⟨rfl, by decide, by decide, by decide,
    bad_input_count_aborts envThreeInputs rfl (by decide) rfl rfl (by decide) (by decide)⟩

/-- C6: during input binding the accepted images are exactly the candidates
that decode successfully and match the low-resolution width/height, each
rejected candidate produces a warning while processing continues with the
remaining candidates (the warnings are exactly the rejected names, in
order), and if zero images survive the filter, a run that reached this
stage aborts with the fatal "Valid input images were not found!" error and
writes no output file. -/
theorem image_filtering_spec (env : Env)
    (hp : parseAndCheck env.flags = Except.ok true)
    (him : env.imageNames ≠ [])
    (hpl : env.pluginErr = none) (hrd : env.readNetErr = none)
    (hni : ¬(env.numInputs ≠ 1 ∧ env.numInputs ≠ 2)) :
    (collectImages env.imread env.lrDims.w env.lrDims.h env.imageNames).1
        = acceptedImagesSpec env.imread env.lrDims.w env.lrDims.h env.imageNames ∧
      (collectImages env.imread env.lrDims.w env.lrDims.h env.imageNames).2
        = (rejectedNamesSpec env.imread env.lrDims.w env.lrDims.h
            env.imageNames).map Event.warn ∧
      ((collectImages env.imread env.lrDims.w env.lrDims.h env.imageNames).1 = [] →
        (run env).status
            = ExitStatus.err (CppException.typed "Valid input images were not found!") ∧
          writtenFiles (run env).events = []) := by
  refine ⟨collectImages_fst_eq env.imread env.lrDims.w env.lrDims.h env.imageNames,
    collectImages_snd_eq env.imread env.lrDims.w env.lrDims.h env.imageNames,
    fun hempty => ?_⟩
  have hrun : run env
      = ⟨ExitStatus.err (CppException.typed "Valid input images were not found!"),
        [Event.readNetwork, Event.readWeights] ++
          (collectImages env.imread env.lrDims.w env.lrDims.h env.imageNames).2⟩ := by
    unfold run
    rw [hp, hpl, hrd]
    simp [him, hni, hempty]
  refine ⟨by rw [hrun], ?_⟩
  rw [hrun]
  show writtenFiles ([Event.readNetwork, Event.readWeights] ++ _) = []
  rw [writtenFiles_append,
    collectImages_snd_eq env.imread env.lrDims.w env.lrDims.h env.imageNames,
    writtenFiles_warns]
  rfl

/-- Witness for `image_filtering_spec` on the concrete environment where
every candidate image fails to decode. -/
theorem image_filtering_spec_witness :
    parseAndCheck envAllRejected.flags = Except.ok true ∧
      envAllRejected.imageNames ≠ [] ∧
      ¬(envAllRejected.numInputs ≠ 1 ∧ envAllRejected.numInputs ≠ 2) ∧
      (collectImages envAllRejected.imread envAllRejected.lrDims.w
          envAllRejected.lrDims.h envAllRejected.imageNames).1 = [] ∧
      ((run envAllRejected).status
          = ExitStatus.err (CppException.typed "Valid input images were not found!") ∧
        writtenFiles (run envAllRejected).events = []) :=
  ⟨rfl, by decide, by decide, by decide,
    (image_filtering_spec envAllRejected rfl (by decide) rfl rfl (by decide)).2.2
      (by decide)⟩

/-- C8: the process exits 0 when no exception reached the catch blocks — on
a successful run and on help display — and exits 1 for every caught error,
whether a typed exception or an unclassified one. -/
theorem exit_codes (env : Env) :
    (∀ e : CppException, (run env).status = ExitStatus.err e → mainExit env = 1) ∧
      ((run env).status = ExitStatus.okExit → mainExit env = 0) ∧
      (env.flags.h = true → mainExit env = 0) := by
  refine ⟨fun e he => ?_, fun hok => ?_, fun hh => ?_⟩
  · rw [mainExit, he]
  · rw [mainExit, hok]
  · have hp : parseAndCheck env.flags = Except.ok false := by
      rw [parseAndCheck, if_pos hh]
    have hrun : run env = ⟨ExitStatus.okExit, []⟩ := by
      unfold run
      rw [hp]
    rw [mainExit, hrun]

/-- Witness for `exit_codes`: a typed validation error exits 1, help exits
0, and an unclassified backend exception exits 1. -/
theorem exit_codes_witness :
    mainExit envNiZero = 1 ∧ mainExit envHelp = 0 ∧ mainExit envUntypedErr = 1 :=
  ⟨(exit_codes envNiZero).1
      (CppException.typed "Parameter -ni should be more than 0 !!! (default 1)") (by decide),
    (exit_codes envHelp).2.2 rfl,
    (exit_codes envUntypedErr).1 CppException.untyped (by decide)⟩

/-- C1, evaluated at a concrete failing input: with candidate paths
`["a.png", "b.png"]` of which only `a.png` decodes and validates, the run
sets the network batch size to 2 — `imageNames.size()`, the number of
candidate paths (main.cpp:156) — although only 1 input image was
successfully validated, and batch slot 1 is never filled before inference.
The claimed invariant (batch size = validated count, every slot populated)
fails on the code. -/
theorem batch_size_uses_candidate_count :
    Event.setBatch 2 ∈ (run envMixed).events ∧
      Event.setBatch 1 ∉ (run envMixed).events ∧
      (collectImages envMixed.imread envMixed.lrDims.w envMixed.lrDims.h
          envMixed.imageNames).1.length = 1 ∧
      fillsOfBlob "0" (run envMixed).events = [(0, ⟨4, 3, 0⟩)] := by
  exact ⟨by decide, by decide, by decide, by decide⟩

/-- C2, evaluated at a concrete failing input: with the same two candidate
paths of which only `a.png` is accepted, the run writes two output files,
`sr_1.png` and `sr_2.png` — one per batch slot of the output tensor, whose
leading dimension is the batch size set from the candidate count — not one
per accepted image.  The 1-based-index `.png` naming itself is as the spec
describes. -/
theorem one_output_file_per_batch_slot :
    writtenFiles (run envMixed).events = ["sr_1.png", "sr_2.png"] ∧
      (collectImages envMixed.imread envMixed.lrDims.w envMixed.lrDims.h
          envMixed.imageNames).1.length = 1 := by
  exact ⟨by decide, by decide⟩
